import Mathlib

/-!
# h2scan: the per-host probe and the record writer

A shallow embedding of `h2scan.go`.

* `tri`, `site`, `tri.String`, `site.fields`, `site.String`, `inList` (the
  source's `in`) and `writer` are pure functions of their arguments.
* `site.test` mutates the record through the pointer receiver and talks to
  the network.  It is embedded by explicit state passing: it takes the record
  and returns the record after the call, together with the list of library
  calls it made, in order.  The library functions it consults (`net.LookupHost`,
  `net.JoinHostPort`, `net.DialTimeout`, `tls.Dial`, `http.Get`,
  `spdy.NewClientConn`, `(*spdy.Client).Do`, `(*http2.Transport).NewClientConn`,
  `(*http2.ClientConn).RoundTrip`) are the fields of a structure `Net`, each a
  function of the arguments the source passes.  Within one run of `test` no
  library function is called twice with the same arguments (the four `tls.Dial`
  calls differ in their `Config`), so quantifying over every `Net` covers every
  combination of outcomes.
* `stdout` is the text `writer` sends to standard output, the written strings
  one after the other; `outputLines` splits it at the newlines.
* Log output (`logf`) goes to the log file only and never touches the record;
  it is not part of the embedding.  Library calls are taken to return.
-/

namespace H2scan

/-! ## Data model -/

/-- Source `in` (h2scan.go:20-28): true when `s` is one of the strings in
`list`.  The `range` loop is the recursion on the list. -/
def inList : List String → String → Bool
  | [], _ => false
  | t :: rest, s => if s == t then true else inList rest s

/-- Source `tri` (h2scan.go:32-35). -/
structure tri where
  ran : Bool
  yesno : Bool
deriving DecidableEq

/-- Source `tri.String` (h2scan.go:37-50); the three `case`s of the `switch`
in order, then the trailing `return "!"`. -/
def tri.String (t : tri) : String :=
  if !t.ran then "-"
  else if t.yesno then "t"
  else if !t.yesno then "f"
  else "!"

/-- A tri-state that has not been attempted: `ran` is false. -/
def tri.notAttempted (t : tri) : Bool := !t.ran

/-- A tri-state that was attempted with a true outcome. -/
def tri.attemptedTrue (t : tri) : Bool := t.ran && t.yesno

/-- A tri-state that was attempted with a false outcome. -/
def tri.attemptedFalse (t : tri) : Bool := t.ran && !t.yesno

/-- Source `site` (h2scan.go:55-68). -/
structure site where
  name : String
  resolves : tri
  port443Open : tri
  tlsWorks : tri
  httpsWorks : tri
  spdyAnnounced : tri
  http2Announced : tri
  spdyWorks : tri
  http2Works : tri
  npn : List String
deriving DecidableEq

/-- The record the dispatcher builds, `&site{name: scan.Text()}`
(h2scan.go:302): every other field has its zero value. -/
def newSite (name : String) : site :=
  { name := name
    resolves := ⟨false, false⟩
    port443Open := ⟨false, false⟩
    tlsWorks := ⟨false, false⟩
    httpsWorks := ⟨false, false⟩
    spdyAnnounced := ⟨false, false⟩
    http2Announced := ⟨false, false⟩
    spdyWorks := ⟨false, false⟩
    http2Works := ⟨false, false⟩
    npn := [] }

/-- A freshly created record: all eight tri-states not attempted and an empty
protocol list. -/
def site.fresh (s : site) : Prop :=
  s.resolves.ran = false ∧ s.port443Open.ran = false ∧ s.tlsWorks.ran = false ∧
  s.httpsWorks.ran = false ∧ s.spdyAnnounced.ran = false ∧
  s.http2Announced.ran = false ∧ s.spdyWorks.ran = false ∧
  s.http2Works.ran = false ∧ s.npn = []

/-- Go `strings.Join(elems, sep)`: the elements with `sep` between
consecutive ones, the empty string for no element. -/
def Join : List String → String → String
  | [], _ => ""
  | [a], _ => a
  | a :: b :: rest, sep => a ++ sep ++ Join (b :: rest) sep

/-- Source `site.fields` (h2scan.go:228-230). -/
def site.fields (_s : site) : String :=
  "name,resolves,port443Open,tlsWorks,httpsWorks,spdyAnnounced,http2Announced,spdyWorks,http2Works,npn"

/-! ## The probe -/

/-- The two fields of `tls.ConnectionState` that `test` reads. -/
structure ConnectionState where
  OfferedProtocols : List String
  NegotiatedProtocol : String
deriving DecidableEq

/-- The two fields of `tls.Config` that `test` sets; `&tls.Config{}` has both
at their zero value. -/
structure Config where
  ServerName : String
  NextProtos : List String
deriving DecidableEq

/-- The library functions `test` consults.  A connection is identified with
its `ConnectionState`; a result is `some`/`true` when the returned `err` is
`nil`. -/
structure Net where
  /-- `net.LookupHost(host)` -/
  LookupHost : String → Bool
  /-- `net.JoinHostPort(host, port)` -/
  JoinHostPort : String → String → String
  /-- `net.DialTimeout(network, address, timeout)`, the timeout in seconds -/
  DialTimeout : String → String → Nat → Bool
  /-- `tls.Dial(network, addr, config)` -/
  tlsDial : String → String → Config → Option ConnectionState
  /-- `http.Get(url)` -/
  httpGet : String → Bool
  /-- `spdy.NewClientConn(c)` -/
  spdyNewClientConn : ConnectionState → Bool
  /-- `sc.Do(req)` for the request `http.NewRequest(method, url, nil)` -/
  spdyDo : String → String → Bool
  /-- `h2t.NewClientConn(c)` -/
  h2NewClientConn : ConnectionState → Bool
  /-- `h2c.RoundTrip(req)` for the request `http.NewRequest(method, url, nil)` -/
  h2RoundTrip : String → String → Bool

/-- One library call made by `test`, with the arguments passed. -/
inductive Call where
  | LookupHost (host : String)
  | DialTimeout (network address : String) (seconds : Nat)
  | tlsDial (network addr : String) (config : Config)
  | httpGet (url : String)
  | spdyNewClientConn (c : ConnectionState)
  | spdyDo (method url : String)
  | h2NewClientConn (c : ConnectionState)
  | h2RoundTrip (method url : String)
deriving DecidableEq

/-- Source `site.test`, h2scan.go:180-215: the HTTP/2 request stage.  `calls`
is the list of library calls made so far. -/
def site.testHTTP2 (net : Net) (hostPort : String) (s : site) (calls : List Call) :
    site × List Call :=
  if s.http2Announced.yesno then
    let s := { s with http2Works.ran := true }
    let conf : Config := { ServerName := "", NextProtos := ["h2"] }
    let calls := calls ++ [Call.tlsDial "tcp" hostPort conf]
    match net.tlsDial "tcp" hostPort conf with
    | some cs =>
      if cs.NegotiatedProtocol != "h2" then
        (s, calls)
      else
        let calls := calls ++ [Call.h2NewClientConn cs]
        if net.h2NewClientConn cs then
          let calls := calls ++ [Call.h2RoundTrip "GET" ("https://" ++ s.name)]
          let ok := net.h2RoundTrip "GET" ("https://" ++ s.name)
          ({ s with http2Works.yesno := ok }, calls)
        else
          (s, calls)
    | none => (s, calls)
  else
    (s, calls)

/-- Source `site.test`, h2scan.go:144-215: the SPDY request stage, followed by
the HTTP/2 request stage. -/
def site.testSPDY (net : Net) (hostPort : String) (s : site) (calls : List Call) :
    site × List Call :=
  if s.spdyAnnounced.yesno then
    let s := { s with spdyWorks.ran := true }
    let conf : Config := { ServerName := "", NextProtos := ["spdy/3.1"] }
    let calls := calls ++ [Call.tlsDial "tcp" hostPort conf]
    match net.tlsDial "tcp" hostPort conf with
    | some cs =>
      if cs.NegotiatedProtocol != "spdy/3.1" then
        site.testHTTP2 net hostPort s calls
      else
        let calls := calls ++ [Call.spdyNewClientConn cs]
        if net.spdyNewClientConn cs then
          let calls := calls ++ [Call.spdyDo "GET" ("https://" ++ s.name)]
          let ok := net.spdyDo "GET" ("https://" ++ s.name)
          site.testHTTP2 net hostPort { s with spdyWorks.yesno := ok } calls
        else
          site.testHTTP2 net hostPort s calls
    | none => site.testHTTP2 net hostPort s calls
  else
    site.testHTTP2 net hostPort s calls

/-- Source `site.test`, h2scan.go:117-215: what follows a successful TLS
handshake with connection `tc`: the advertisement check, the HTTPS request
and the two protocol request stages. -/
def site.testTLSOk (net : Net) (hostPort : String) (tc : ConnectionState) (s : site)
    (calls : List Call) : site × List Call :=
  let s := { s with tlsWorks.yesno := true }
  let cs := tc
  let s := { s with npn := cs.OfferedProtocols }
  let s := { s with spdyAnnounced.ran := true }
  let s := { s with spdyAnnounced.yesno := inList cs.OfferedProtocols "spdy/3.1" }
  let s := { s with http2Announced.ran := true }
  let s := { s with http2Announced.yesno := inList cs.OfferedProtocols "h2" }
  let s := { s with httpsWorks.ran := true }
  let calls := calls ++ [Call.httpGet ("https://" ++ s.name)]
  if !net.httpGet ("https://" ++ s.name) then
    (s, calls)
  else
    let s := { s with httpsWorks.yesno := true }
    site.testSPDY net hostPort s calls

/-- Source `site.test` (h2scan.go:71-216).  The value is the record after the
call and the library calls made, in order. -/
def site.test (net : Net) (s : site) : site × List Call :=
  let s := { s with resolves.ran := true }
  let calls := [Call.LookupHost s.name]
  if !net.LookupHost s.name then
    ({ s with resolves.yesno := false }, calls)
  else
    let s := { s with resolves.yesno := true }
    let hostPort := net.JoinHostPort s.name "443"
    let s := { s with port443Open.ran := true }
    let calls := calls ++ [Call.DialTimeout "tcp" hostPort 2]
    if !net.DialTimeout "tcp" hostPort 2 then
      ({ s with port443Open.yesno := false }, calls)
    else
      let s := { s with port443Open.yesno := true }
      let s := { s with tlsWorks.ran := true }
      let config : Config := { ServerName := s.name, NextProtos := [] }
      let calls := calls ++ [Call.tlsDial "tcp" hostPort config]
      match net.tlsDial "tcp" hostPort config with
      | some tc => site.testTLSOk net hostPort tc s calls
      | none =>
        let s := { s with name := "www." ++ s.name }
        let config := { config with ServerName := s.name }
        let hostPort := net.JoinHostPort s.name "443"
        let calls := calls ++ [Call.tlsDial "tcp" hostPort config]
        match net.tlsDial "tcp" hostPort config with
        | some tc => site.testTLSOk net hostPort tc s calls
        | none => ({ s with tlsWorks.yesno := false }, calls)


/-! ## Rendering -/

/-- Source `site.String` (h2scan.go:232-237): `fmt.Sprintf` with ten `%s`
verbs separated by commas; a `tri` argument is formatted by `tri.String`. -/
def site.String (s : site) : String :=
  s.name ++ "," ++ s.resolves.String ++ "," ++ s.port443Open.String ++ "," ++
  s.tlsWorks.String ++ "," ++ s.httpsWorks.String ++ "," ++
  s.spdyAnnounced.String ++ "," ++ s.http2Announced.String ++ "," ++
  s.spdyWorks.String ++ "," ++ s.http2Works.String ++ "," ++ Join s.npn " "

/-! ## The writer -/

/-- The loop of source `writer` (h2scan.go:251-258) over the records received
on `result`, with the loop variable `first` as an argument.  The value is the
list of strings written by the `fmt.Printf` calls, in order. -/
def writerLoop (fields : Bool) : Bool → List site → List String
  | _, [] => []
  | first, s :: rest =>
    if fields && first then
      (s.fields ++ "\n") :: (s.String ++ "\n") :: writerLoop fields false rest
    else
      (s.String ++ "\n") :: writerLoop fields first rest

/-- Source `writer` (h2scan.go:249-260): `first := true`, then the loop. -/
def writer (result : List site) (fields : Bool) : List String :=
  writerLoop fields true result

/-- Some comma of the character list is followed, two places on, by another
comma. -/
def commaGap : List Char → Bool
  | [] => false
  | a :: t => (a == ',' && (t.drop 1).head? == some ',') || commaGap t

/-! ## Vocabulary of the statements -/

/-- A library call of the stages that follow the TLS handshake
(h2scan.go:130-215), made for the address `hostPort` and the name `name`: the
HTTPS `GET` of `"https://" + name`, a `tls.Dial` to `hostPort` offering only
`spdy/3.1` or only `h2`, the creation of a SPDY or HTTP/2 client connection, or
a `GET` of `"https://" + name` over one of them. -/
def Call.isLater (hostPort name : String) : Call → Bool
  | .httpGet url => url == "https://" ++ name
  | .tlsDial network addr config =>
    network == "tcp" && addr == hostPort && config.ServerName == "" &&
      (config.NextProtos == ["spdy/3.1"] || config.NextProtos == ["h2"])
  | .spdyNewClientConn _ => true
  | .spdyDo method url => method == "GET" && url == "https://" ++ name
  | .h2NewClientConn _ => true
  | .h2RoundTrip method url => method == "GET" && url == "https://" ++ name
  | .LookupHost _ => false
  | .DialTimeout _ _ _ => false

/-- Stages 1 to 3 succeed for the name `n`: the name resolves, port 443
accepts a TCP connection, and the TLS handshake succeeds with connection state
`tc`, either at the first attempt (then `m = n`) or, the first attempt having
failed, at the retry under the name `m = "www." ++ n`. -/
def Net.reachesStage4 (net : Net) (n m : String) (tc : ConnectionState) : Prop :=
  net.LookupHost n = true ∧
  net.DialTimeout "tcp" (net.JoinHostPort n "443") 2 = true ∧
  ((m = n ∧ net.tlsDial "tcp" (net.JoinHostPort n "443") ⟨n, []⟩ = some tc) ∨
   (m = "www." ++ n ∧ net.tlsDial "tcp" (net.JoinHostPort n "443") ⟨n, []⟩ = none ∧
     net.tlsDial "tcp" (net.JoinHostPort m "443") ⟨m, []⟩ = some tc))

/-- The escalation invariant on a record `r`: when resolution is not
attempted-true the other seven tri-states are not attempted; when the port
check is not attempted-true the six after it are not attempted; when the TLS
check is not attempted-true the five after it are not attempted; when an
advertisement is not attempted-true the matching request is not attempted. -/
def site.escalated (r : site) : Prop :=
  (r.resolves.attemptedTrue = false →
    r.port443Open.notAttempted = true ∧ r.tlsWorks.notAttempted = true ∧
    r.httpsWorks.notAttempted = true ∧ r.spdyAnnounced.notAttempted = true ∧
    r.http2Announced.notAttempted = true ∧ r.spdyWorks.notAttempted = true ∧
    r.http2Works.notAttempted = true) ∧
  (r.port443Open.attemptedTrue = false →
    r.tlsWorks.notAttempted = true ∧
    r.httpsWorks.notAttempted = true ∧ r.spdyAnnounced.notAttempted = true ∧
    r.http2Announced.notAttempted = true ∧ r.spdyWorks.notAttempted = true ∧
    r.http2Works.notAttempted = true) ∧
  (r.tlsWorks.attemptedTrue = false →
    r.httpsWorks.notAttempted = true ∧ r.spdyAnnounced.notAttempted = true ∧
    r.http2Announced.notAttempted = true ∧ r.spdyWorks.notAttempted = true ∧
    r.http2Works.notAttempted = true) ∧
  (r.spdyAnnounced.attemptedTrue = false → r.spdyWorks.notAttempted = true) ∧
  (r.http2Announced.attemptedTrue = false → r.http2Works.notAttempted = true)

/-- An example network around the host `example.com`.  `lookup` and `dial`
are the outcomes of resolution and of the TCP dial; a handshake that offers no
protocol yields `first` under the server name `example.com` and `retry` under
any other; a handshake that offers a protocol negotiates `negotiated`; `get`,
`session` and `request` are the outcomes of the HTTPS `GET`, of creating a SPDY
or HTTP/2 client connection, and of a request over it. -/
def exampleNet (lookup dial : Bool) (first retry : Option ConnectionState) (get : Bool)
    (negotiated : String) (session request : Bool) : Net where
  LookupHost := fun _ => lookup
  JoinHostPort := fun host port => host ++ ":" ++ port
  DialTimeout := fun _ _ _ => dial
  tlsDial := fun _ _ config =>
    if config.NextProtos = [] then
      (if config.ServerName = "example.com" then first else retry)
    else some ⟨[], negotiated⟩
  httpGet := fun _ => get
  spdyNewClientConn := fun _ => session
  spdyDo := fun _ _ => request
  h2NewClientConn := fun _ => session
  h2RoundTrip := fun _ _ => request

/-! ## Standard output -/

/-- The text written to standard output by `writer`: the strings of the
`fmt.Printf` calls one after the other. -/
def stdout (result : List site) (fields : Bool) : String :=
  (writer result fields).foldr (fun line rest => line ++ rest) ""

/-- The lines of a text: the runs of characters between newlines, each ended by
a newline or by the end of the text. -/
def linesOf : List Char → List (List Char)
  | [] => []
  | c :: cs =>
    if c = '\n' then [] :: linesOf cs
    else
      match linesOf cs with
      | [] => [[c]]
      | l :: ls => (c :: l) :: ls

/-- The lines of an output text, as strings. -/
def outputLines (out : String) : List String :=
  (linesOf out.data).map String.mk

/-- Neither the name nor any protocol identifier of the record contains a
newline. -/
def site.oneLine (s : site) : Prop :=
  '\n' ∉ s.name.data ∧ ∀ p ∈ s.npn, '\n' ∉ p.data

/-- An example network whose server offers one protocol identifier made of
`x`, a newline and the text of the header line. -/
def headerNet : Net :=
  exampleNet true true
    (some ⟨["x\nname,resolves,port443Open,tlsWorks,httpsWorks,spdyAnnounced,http2Announced,spdyWorks,http2Works,npn"], ""⟩)
    none false "" false false

/-! ## Rendering lemmas -/

theorem Join_cons_append (x y sep : String) (l : List String) :
    Join ((x ++ y) :: l) sep = x ++ Join (y :: l) sep := by
  cases l with
  | nil => rfl
  | cons b rest => simp only [Join, String.append_assoc]

theorem intercalate_go_eq_Join (sep : String) (l : List String) (acc : String) :
    String.intercalate.go acc sep l = Join (acc :: l) sep := by
  induction l generalizing acc with
  | nil => rfl
  | cons a t ih =>
    rw [String.intercalate.go, ih, String.append_assoc, Join_cons_append, Join_cons_append]
    simp only [Join, String.append_assoc]

theorem Join_eq_intercalate (l : List String) (sep : String) :
    Join l sep = sep.intercalate l := by
  cases l with
  | nil => rfl
  | cons a t => rw [String.intercalate, intercalate_go_eq_Join]

theorem tri_String_data (t : tri) : ∃ c : Char, t.String.data = [c] := by
  rcases t with ⟨_ | _, _ | _⟩
  · exact ⟨'-', rfl⟩
  · exact ⟨'-', rfl⟩
  · exact ⟨'f', rfl⟩
  · exact ⟨'t', rfl⟩

theorem commaGap_append (pre rest : List Char) (x : Char) :
    commaGap (pre ++ ',' :: x :: ',' :: rest) = true := by
  induction pre with
  | nil => simp [commaGap]
  | cons p ps ih => simp [commaGap, ih]

theorem site_String_ne_fields (s r : site) : s.String ≠ r.fields := by
  intro h
  have h1 : commaGap s.String.data = true := by
    obtain ⟨c, hc⟩ := tri_String_data s.resolves
    obtain ⟨R, hR⟩ : ∃ R : String,
        s.String = s.name ++ ("," ++ (s.resolves.String ++ ("," ++ R))) :=
      ⟨_, by simp only [site.String, String.append_assoc]; rfl⟩
    have e : s.String.data = s.name.data ++ ',' :: c :: ',' :: R.data := by
      rw [hR, String.data_append, String.data_append, String.data_append,
        String.data_append, hc]
      rfl
    rw [e]
    exact commaGap_append _ _ _
  have h2 : commaGap r.fields.data = false := by
    unfold site.fields
    decide
  rw [h] at h1
  rw [h1] at h2
  exact Bool.noConfusion h2

theorem inList_iff (list : List String) (s : String) : inList list s = true ↔ s ∈ list := by
  induction list with
  | nil => simp [inList]
  | cons t rest ih =>
    by_cases h : s = t
    · simp [inList, h]
    · simp [inList, h, ih]

theorem writerLoop_false (first : Bool) (rs : List site) :
    writerLoop false first rs = rs.map (fun s => s.String ++ "\n") := by
  induction rs with
  | nil => rfl
  | cons r rest ih => simp [writerLoop, ih]

theorem writerLoop_not_first (fields : Bool) (rs : List site) :
    writerLoop fields false rs = rs.map (fun s => s.String ++ "\n") := by
  induction rs with
  | nil => rfl
  | cons r rest ih => simp [writerLoop, ih]

/-- Claim C9. Record rendering: `site.String` is the ten fields `name`,
`resolves`, `port443Open`, `tlsWorks`, `httpsWorks`, `spdyAnnounced`,
`http2Announced`, `spdyWorks`, `http2Works`, `npn` in that order joined by
single commas, where `npn` is its elements joined by a single space (the empty
string for the empty list); a tri-state renders `-` when not attempted whatever
its `yesno`, `f` when attempted and false, `t` when attempted and true;
`tri.String` never returns `!`; and writing the same record twice writes the
same string twice. -/
theorem C9_record_rendering (s : site) :
    s.String = ",".intercalate [s.name, s.resolves.String, s.port443Open.String,
        s.tlsWorks.String, s.httpsWorks.String, s.spdyAnnounced.String,
        s.http2Announced.String, s.spdyWorks.String, s.http2Works.String,
        " ".intercalate s.npn]
    ∧ Join s.npn " " = " ".intercalate s.npn
    ∧ Join [] " " = ""
    ∧ (∀ yesno : Bool, (tri.mk false yesno).String = "-")
    ∧ (tri.mk true false).String = "f"
    ∧ (tri.mk true true).String = "t"
    ∧ (∀ t : tri, t.String ≠ "!")
    ∧ writer [s, s] false = [s.String ++ "\n", s.String ++ "\n"] := by
  refine ⟨?_, Join_eq_intercalate _ _, rfl, ?_, rfl, rfl, ?_, rfl⟩
  · rw [← Join_eq_intercalate, ← Join_eq_intercalate]
    simp only [Join, site.String, String.append_assoc]
  · intro b
    cases b <;> rfl
  · intro t
    rcases t with ⟨_ | _, _ | _⟩ <;> decide

/-! ## The writer: strings written and lines of the output -/

theorem writer_fields_on (r : site) (rs : List site) :
    writer (r :: rs) true
      = (r.fields :: (r :: rs).map site.String).map (fun x => x ++ "\n") := by
  simp [writer, writerLoop, writerLoop_not_first]

theorem writer_fields_off (rs : List site) :
    writer rs false = (rs.map site.String).map (fun x => x ++ "\n") := by
  simp [writer, writerLoop_false]

theorem linesOf_append_newline (l rest : List Char) (h : '\n' ∉ l) :
    linesOf (l ++ '\n' :: rest) = l :: linesOf rest := by
  induction l with
  | nil => simp [linesOf]
  | cons c t ih =>
    have hc : c ≠ '\n' := fun e => h (by simp [e])
    have ht : '\n' ∉ t := fun e => h (List.mem_cons_of_mem _ e)
    simp [linesOf, hc, ih ht]

theorem outputLines_of_lines (xs : List String) (h : ∀ x ∈ xs, '\n' ∉ x.data) :
    outputLines ((xs.map (fun x => x ++ "\n")).foldr (fun line rest => line ++ rest) "")
      = xs := by
  induction xs with
  | nil => rfl
  | cons x t ih =>
    have hx := h x (List.mem_cons_self _ _)
    have ht := ih (fun y hy => h y (List.mem_cons_of_mem _ hy))
    unfold outputLines at ht ⊢
    simp only [List.map_cons, List.foldr_cons, String.append_assoc, String.data_append]
    rw [List.singleton_append, linesOf_append_newline _ _ hx, List.map_cons, ht]

theorem tri_String_no_newline (t : tri) : '\n' ∉ t.String.data := by
  rcases t with ⟨_ | _, _ | _⟩ <;> decide

theorem Join_no_newline (l : List String) (h : ∀ p ∈ l, '\n' ∉ p.data) :
    '\n' ∉ (Join l " ").data := by
  induction l with
  | nil => decide
  | cons a t ih =>
    cases t with
    | nil => exact h a (List.mem_cons_self _ _)
    | cons b rest =>
      have ha := h a (List.mem_cons_self _ _)
      have hr := ih (fun p hp => h p (List.mem_cons_of_mem _ hp))
      have e : (" " : String).data = [' '] := rfl
      simp only [Join, String.data_append, List.mem_append, e, List.mem_singleton]
      intro hmem
      rcases hmem with (hmem | hmem) | hmem
      · exact ha hmem
      · exact absurd hmem (by decide)
      · exact hr hmem

theorem site_String_no_newline (s : site) (h : s.oneLine) : '\n' ∉ s.String.data := by
  obtain ⟨hn, hp⟩ := h
  have e : (",": String).data = [','] := rfl
  have hc : ¬ '\n' = ',' := by decide
  simp only [site.String, String.data_append, List.mem_append, e, List.mem_singleton]
  have := Join_no_newline s.npn hp
  have t1 := tri_String_no_newline s.resolves
  have t2 := tri_String_no_newline s.port443Open
  have t3 := tri_String_no_newline s.tlsWorks
  have t4 := tri_String_no_newline s.httpsWorks
  have t5 := tri_String_no_newline s.spdyAnnounced
  have t6 := tri_String_no_newline s.http2Announced
  have t7 := tri_String_no_newline s.spdyWorks
  have t8 := tri_String_no_newline s.http2Works
  tauto

theorem fields_no_newline (r : site) : '\n' ∉ r.fields.data := by
  unfold site.fields
  decide

theorem fields_not_mem_renderings (r : site) (rs : List site) :
    r.fields ∉ rs.map site.String := by
  intro h
  obtain ⟨s, -, hs⟩ := List.mem_map.1 h
  exact site_String_ne_fields s r hs

/-- Claim C10 as stated fails. The host `example.com` resolves, accepts the
TCP dial and completes the TLS handshake offering one protocol identifier made
of `x`, a newline and the header text; the HTTPS `GET` fails.  With header
output disabled the output has two lines for this one record and the second
is the header line; with header output enabled the header line occurs
twice. -/
theorem C10_counterexample :
    ((newSite "example.com").test headerNet).1.String
      = "example.com,t,t,t,f,f,f,-,-,x\nname,resolves,port443Open,tlsWorks,httpsWorks,spdyAnnounced,http2Announced,spdyWorks,http2Works,npn" ∧
    outputLines (stdout [((newSite "example.com").test headerNet).1] false)
      = ["example.com,t,t,t,f,f,f,-,-,x",
         ((newSite "example.com").test headerNet).1.fields] ∧
    outputLines (stdout [((newSite "example.com").test headerNet).1] false)
      ≠ [((newSite "example.com").test headerNet).1.String] ∧
    ((newSite "example.com").test headerNet).1.fields
      ∈ outputLines (stdout [((newSite "example.com").test headerNet).1] false) ∧
    (outputLines (stdout [((newSite "example.com").test headerNet).1] true)).count
      ((newSite "example.com").test headerNet).1.fields = 2 := by
  refine ⟨by decide, by decide, by decide, by decide, by decide⟩

/-- Claim C10 (amended). Header property of the writer: for every sequence of
records received on the result queue whose names and protocol identifiers
contain no newline, with header output enabled and at least one record the
lines of the output are the fixed field-name header line (`site.fields`)
followed by the rendering of each record in receive order, and the header
line occurs exactly once among them; with header output disabled the lines of
the output are exactly the renderings in receive order and none of them is
the header line; with no record nothing is written in either mode. -/
theorem C10_writer_header_lines (r : site) (rs : List site)
    (h : ∀ s ∈ r :: rs, s.oneLine) :
    (∀ s : site, s.fields = "name,resolves,port443Open,tlsWorks,httpsWorks,spdyAnnounced,http2Announced,spdyWorks,http2Works,npn")
    ∧ outputLines (stdout (r :: rs) true) = r.fields :: (r :: rs).map site.String
    ∧ (outputLines (stdout (r :: rs) true)).count r.fields = 1
    ∧ outputLines (stdout (r :: rs) false) = (r :: rs).map site.String
    ∧ r.fields ∉ outputLines (stdout (r :: rs) false)
    ∧ stdout [] true = "" ∧ stdout [] false = ""
    ∧ outputLines (stdout [] true) = [] ∧ outputLines (stdout [] false) = [] := by
  have hr : ∀ x ∈ (r :: rs).map site.String, '\n' ∉ x.data := by
    intro x hx
    obtain ⟨s, hs, rfl⟩ := List.mem_map.1 hx
    exact site_String_no_newline s (h s hs)
  have e1 : outputLines (stdout (r :: rs) true) = r.fields :: (r :: rs).map site.String := by
    unfold stdout
    rw [writer_fields_on]
    apply outputLines_of_lines
    intro x hx
    rcases List.mem_cons.1 hx with rfl | hx
    · exact fields_no_newline r
    · exact hr x hx
  have e2 : outputLines (stdout (r :: rs) false) = (r :: rs).map site.String := by
    unfold stdout
    rw [writer_fields_off]
    exact outputLines_of_lines _ hr
  refine ⟨fun _ => rfl, e1, ?_, e2, ?_, rfl, rfl, rfl, rfl⟩
  · rw [e1, List.count_cons_self,
      List.count_eq_zero_of_not_mem (fields_not_mem_renderings r _)]
  · rw [e2]
    exact fields_not_mem_renderings r _

theorem newSite_oneLine (n : String) (h : '\n' ∉ n.data) : (newSite n).oneLine :=
  ⟨h, fun _ hp => absurd hp (List.not_mem_nil _)⟩

/-- Witness of C10 (amended): the records for `example.com` and `example.org`
as the dispatcher builds them. -/
theorem C10_writer_header_lines_witness :
    (∀ s ∈ [newSite "example.com", newSite "example.org"], s.oneLine) ∧
    outputLines (stdout [newSite "example.com", newSite "example.org"] true)
      = (newSite "example.com").fields ::
          [newSite "example.com", newSite "example.org"].map site.String :=
  ⟨fun s hs => by
      simp only [List.mem_cons, List.mem_singleton, List.not_mem_nil, or_false] at hs
      rcases hs with rfl | rfl <;> exact newSite_oneLine _ (by decide),
    (C10_writer_header_lines (newSite "example.com") [newSite "example.org"]
      (fun s hs => by
        simp only [List.mem_cons, List.mem_singleton, List.not_mem_nil, or_false] at hs
        rcases hs with rfl | rfl <;> exact newSite_oneLine _ (by decide))).2.1⟩

/-! ## The probe: what each stage changes -/

theorem testHTTP2_fst (net : Net) (hp : String) (s : site) (calls : List Call) :
    ∃ v : tri, (site.testHTTP2 net hp s calls).1 = { s with http2Works := v } ∧
      (s.http2Announced.yesno = false → v = s.http2Works) ∧
      (s.http2Announced.yesno = true → v.ran = true) := by
  unfold site.testHTTP2
  cases h : s.http2Announced.yesno
  · exact ⟨s.http2Works, by simp, by simp, by simp⟩
  · simp only [if_true]
    cases net.tlsDial "tcp" hp { ServerName := "", NextProtos := ["h2"] } with
    | none => exact ⟨⟨true, s.http2Works.yesno⟩, by simp, by simp, by simp⟩
    | some cs =>
      simp only
      split_ifs
      · exact ⟨⟨true, s.http2Works.yesno⟩, by simp, by simp, by simp⟩
      · exact ⟨⟨true, net.h2RoundTrip "GET" ("https://" ++ s.name)⟩, by simp, by simp, by simp⟩
      · exact ⟨⟨true, s.http2Works.yesno⟩, by simp, by simp, by simp⟩

theorem testSPDY_fst (net : Net) (hp : String) (s : site) (calls : List Call) :
    ∃ w v : tri, (site.testSPDY net hp s calls).1 = { s with spdyWorks := w, http2Works := v } ∧
      (s.spdyAnnounced.yesno = false → w = s.spdyWorks) ∧
      (s.spdyAnnounced.yesno = true → w.ran = true) ∧
      (s.http2Announced.yesno = false → v = s.http2Works) ∧
      (s.http2Announced.yesno = true → v.ran = true) := by
  unfold site.testSPDY
  cases h : s.spdyAnnounced.yesno
  · obtain ⟨v, e, hv⟩ := testHTTP2_fst net hp s calls
    exact ⟨s.spdyWorks, v, e.trans rfl, by simp, by simp, hv⟩
  · simp only [if_true]
    cases net.tlsDial "tcp" hp { ServerName := "", NextProtos := ["spdy/3.1"] } with
    | none =>
      obtain ⟨v, e, hv⟩ := testHTTP2_fst net hp { s with spdyWorks.ran := true }
        (calls ++ [Call.tlsDial "tcp" hp { ServerName := "", NextProtos := ["spdy/3.1"] }])
      exact ⟨⟨true, s.spdyWorks.yesno⟩, v, e.trans rfl, by simp, by simp, hv⟩
    | some cs =>
      simp only
      split_ifs
      · obtain ⟨v, e, hv⟩ := testHTTP2_fst net hp { s with spdyWorks.ran := true }
          (calls ++ [Call.tlsDial "tcp" hp { ServerName := "", NextProtos := ["spdy/3.1"] }])
        exact ⟨⟨true, s.spdyWorks.yesno⟩, v, e.trans rfl, by simp, by simp, hv⟩
      · obtain ⟨v, e, hv⟩ := testHTTP2_fst net hp
          { s with spdyWorks := ⟨true, net.spdyDo "GET" ("https://" ++ s.name)⟩ }
          (calls ++ [Call.tlsDial "tcp" hp { ServerName := "", NextProtos := ["spdy/3.1"] }] ++
            [Call.spdyNewClientConn cs] ++ [Call.spdyDo "GET" ("https://" ++ s.name)])
        exact ⟨⟨true, net.spdyDo "GET" ("https://" ++ s.name)⟩, v, e.trans rfl, by simp, by simp, hv⟩
      · obtain ⟨v, e, hv⟩ := testHTTP2_fst net hp { s with spdyWorks.ran := true }
          (calls ++ [Call.tlsDial "tcp" hp { ServerName := "", NextProtos := ["spdy/3.1"] }] ++
            [Call.spdyNewClientConn cs])
        exact ⟨⟨true, s.spdyWorks.yesno⟩, v, e.trans rfl, by simp, by simp, hv⟩

theorem testTLSOk_fst (net : Net) (hp : String) (tc : ConnectionState) (s : site)
    (calls : List Call) :
    ∃ (g : Bool) (w v : tri), (site.testTLSOk net hp tc s calls).1 =
        { name := s.name, resolves := s.resolves, port443Open := s.port443Open,
          tlsWorks := ⟨s.tlsWorks.ran, true⟩, httpsWorks := ⟨true, g⟩,
          spdyAnnounced := ⟨true, inList tc.OfferedProtocols "spdy/3.1"⟩,
          http2Announced := ⟨true, inList tc.OfferedProtocols "h2"⟩,
          spdyWorks := w, http2Works := v, npn := tc.OfferedProtocols } ∧
      (net.httpGet ("https://" ++ s.name) = true → g = true) ∧
      (net.httpGet ("https://" ++ s.name) = false →
        g = s.httpsWorks.yesno ∧ w = s.spdyWorks ∧ v = s.http2Works) ∧
      (inList tc.OfferedProtocols "spdy/3.1" = false → w = s.spdyWorks) ∧
      (inList tc.OfferedProtocols "h2" = false → v = s.http2Works) := by
  unfold site.testTLSOk
  cases h : net.httpGet ("https://" ++ s.name)
  · exact ⟨s.httpsWorks.yesno, s.spdyWorks, s.http2Works, by simp [h], by simp, by simp,
      by simp, by simp⟩
  · obtain ⟨w, v, e, hw, -, hv, -⟩ := testSPDY_fst net hp
      { name := s.name, resolves := s.resolves, port443Open := s.port443Open,
        tlsWorks := ⟨s.tlsWorks.ran, true⟩, httpsWorks := ⟨true, true⟩,
        spdyAnnounced := ⟨true, inList tc.OfferedProtocols "spdy/3.1"⟩,
        http2Announced := ⟨true, inList tc.OfferedProtocols "h2"⟩,
        spdyWorks := s.spdyWorks, http2Works := s.http2Works, npn := tc.OfferedProtocols }
      (calls ++ [Call.httpGet ("https://" ++ s.name)])
    refine ⟨true, w, v, ?_, by simp, by simp, hw, hv⟩
    simp only [h, Bool.not_true, Bool.false_eq_true, if_false]
    exact e.trans rfl

/-! ## The probe: the five ways through stages 1 to 3 -/

theorem test_resolve_fail (net : Net) (s : site) (h1 : net.LookupHost s.name = false) :
    s.test net = ({ s with resolves := ⟨true, false⟩ }, [Call.LookupHost s.name]) := by
  simp [site.test, h1]

theorem test_dial_fail (net : Net) (s : site) (h1 : net.LookupHost s.name = true)
    (h2 : net.DialTimeout "tcp" (net.JoinHostPort s.name "443") 2 = false) :
    s.test net = ({ s with resolves := ⟨true, true⟩, port443Open := ⟨true, false⟩ },
      [Call.LookupHost s.name, Call.DialTimeout "tcp" (net.JoinHostPort s.name "443") 2]) := by
  simp [site.test, h1, h2]

theorem test_tls_first (net : Net) (s : site) (tc : ConnectionState)
    (h1 : net.LookupHost s.name = true)
    (h2 : net.DialTimeout "tcp" (net.JoinHostPort s.name "443") 2 = true)
    (h3 : net.tlsDial "tcp" (net.JoinHostPort s.name "443") ⟨s.name, []⟩ = some tc) :
    s.test net = site.testTLSOk net (net.JoinHostPort s.name "443") tc
      { s with resolves := ⟨true, true⟩, port443Open := ⟨true, true⟩,
               tlsWorks := ⟨true, s.tlsWorks.yesno⟩ }
      [Call.LookupHost s.name, Call.DialTimeout "tcp" (net.JoinHostPort s.name "443") 2,
        Call.tlsDial "tcp" (net.JoinHostPort s.name "443") ⟨s.name, []⟩] := by
  simp [site.test, h1, h2, h3]

theorem test_tls_retry (net : Net) (s : site) (tc : ConnectionState)
    (h1 : net.LookupHost s.name = true)
    (h2 : net.DialTimeout "tcp" (net.JoinHostPort s.name "443") 2 = true)
    (h3 : net.tlsDial "tcp" (net.JoinHostPort s.name "443") ⟨s.name, []⟩ = none)
    (h4 : net.tlsDial "tcp" (net.JoinHostPort ("www." ++ s.name) "443")
      ⟨"www." ++ s.name, []⟩ = some tc) :
    s.test net = site.testTLSOk net (net.JoinHostPort ("www." ++ s.name) "443") tc
      { s with name := "www." ++ s.name, resolves := ⟨true, true⟩,
               port443Open := ⟨true, true⟩, tlsWorks := ⟨true, s.tlsWorks.yesno⟩ }
      [Call.LookupHost s.name, Call.DialTimeout "tcp" (net.JoinHostPort s.name "443") 2,
        Call.tlsDial "tcp" (net.JoinHostPort s.name "443") ⟨s.name, []⟩,
        Call.tlsDial "tcp" (net.JoinHostPort ("www." ++ s.name) "443")
          ⟨"www." ++ s.name, []⟩] := by
  simp [site.test, h1, h2, h3, h4]

theorem test_tls_fail (net : Net) (s : site)
    (h1 : net.LookupHost s.name = true)
    (h2 : net.DialTimeout "tcp" (net.JoinHostPort s.name "443") 2 = true)
    (h3 : net.tlsDial "tcp" (net.JoinHostPort s.name "443") ⟨s.name, []⟩ = none)
    (h4 : net.tlsDial "tcp" (net.JoinHostPort ("www." ++ s.name) "443")
      ⟨"www." ++ s.name, []⟩ = none) :
    s.test net = ({ s with name := "www." ++ s.name, resolves := ⟨true, true⟩,
                           port443Open := ⟨true, true⟩, tlsWorks := ⟨true, false⟩ },
      [Call.LookupHost s.name, Call.DialTimeout "tcp" (net.JoinHostPort s.name "443") 2,
        Call.tlsDial "tcp" (net.JoinHostPort s.name "443") ⟨s.name, []⟩,
        Call.tlsDial "tcp" (net.JoinHostPort ("www." ++ s.name) "443")
          ⟨"www." ++ s.name, []⟩]) := by
  simp [site.test, h1, h2, h3, h4]

/-! ## The probe: the library calls of the later stages -/

theorem testHTTP2_snd (net : Net) (hp : String) (s : site) (calls : List Call) :
    ∃ later : List Call, (site.testHTTP2 net hp s calls).2 = calls ++ later ∧
      ∀ c ∈ later, c.isLater hp s.name = true := by
  unfold site.testHTTP2
  cases h : s.http2Announced.yesno
  · exact ⟨[], by simp, by simp⟩
  · simp only [if_true]
    cases net.tlsDial "tcp" hp { ServerName := "", NextProtos := ["h2"] } with
    | none => exact ⟨[Call.tlsDial "tcp" hp { ServerName := "", NextProtos := ["h2"] }], rfl,
        by simp [Call.isLater]⟩
    | some cs =>
      simp only
      split_ifs
      · exact ⟨[Call.tlsDial "tcp" hp { ServerName := "", NextProtos := ["h2"] }], rfl,
          by simp [Call.isLater]⟩
      · exact ⟨[Call.tlsDial "tcp" hp { ServerName := "", NextProtos := ["h2"] },
          Call.h2NewClientConn cs, Call.h2RoundTrip "GET" ("https://" ++ s.name)],
          by simp, by simp [Call.isLater]⟩
      · exact ⟨[Call.tlsDial "tcp" hp { ServerName := "", NextProtos := ["h2"] },
          Call.h2NewClientConn cs], by simp, by simp [Call.isLater]⟩

theorem isLater_cons {hp name : String} {c : Call} {l : List Call}
    (hc : c.isLater hp name = true) (hl : ∀ d ∈ l, d.isLater hp name = true) :
    ∀ d ∈ c :: l, d.isLater hp name = true := by
  intro d hd
  rcases List.mem_cons.1 hd with rfl | hd
  · exact hc
  · exact hl d hd

theorem testSPDY_snd (net : Net) (hp : String) (s : site) (calls : List Call) :
    ∃ later : List Call, (site.testSPDY net hp s calls).2 = calls ++ later ∧
      ∀ c ∈ later, c.isLater hp s.name = true := by
  unfold site.testSPDY
  cases h : s.spdyAnnounced.yesno
  · exact testHTTP2_snd net hp s calls
  · simp only [if_true]
    cases net.tlsDial "tcp" hp { ServerName := "", NextProtos := ["spdy/3.1"] } with
    | none =>
      obtain ⟨l, e, hl⟩ := testHTTP2_snd net hp { s with spdyWorks.ran := true }
        (calls ++ [Call.tlsDial "tcp" hp { ServerName := "", NextProtos := ["spdy/3.1"] }])
      exact ⟨Call.tlsDial "tcp" hp { ServerName := "", NextProtos := ["spdy/3.1"] } :: l,
          e.trans (by simp), isLater_cons (by simp [Call.isLater]) hl⟩
    | some cs =>
      simp only
      split_ifs
      · obtain ⟨l, e, hl⟩ := testHTTP2_snd net hp { s with spdyWorks.ran := true }
          (calls ++ [Call.tlsDial "tcp" hp { ServerName := "", NextProtos := ["spdy/3.1"] }])
        exact ⟨Call.tlsDial "tcp" hp { ServerName := "", NextProtos := ["spdy/3.1"] } :: l,
          e.trans (by simp), isLater_cons (by simp [Call.isLater]) hl⟩
      · obtain ⟨l, e, hl⟩ := testHTTP2_snd net hp
          { s with spdyWorks := ⟨true, net.spdyDo "GET" ("https://" ++ s.name)⟩ }
          (calls ++ [Call.tlsDial "tcp" hp { ServerName := "", NextProtos := ["spdy/3.1"] }] ++
            [Call.spdyNewClientConn cs] ++ [Call.spdyDo "GET" ("https://" ++ s.name)])
        exact ⟨Call.tlsDial "tcp" hp { ServerName := "", NextProtos := ["spdy/3.1"] } :: Call.spdyNewClientConn cs ::
          Call.spdyDo "GET" ("https://" ++ s.name) :: l, e.trans (by simp),
          isLater_cons (by simp [Call.isLater]) (isLater_cons (by simp [Call.isLater])
            (isLater_cons (by simp [Call.isLater]) hl))⟩
      · obtain ⟨l, e, hl⟩ := testHTTP2_snd net hp { s with spdyWorks.ran := true }
          (calls ++ [Call.tlsDial "tcp" hp { ServerName := "", NextProtos := ["spdy/3.1"] }] ++
            [Call.spdyNewClientConn cs])
        exact ⟨Call.tlsDial "tcp" hp { ServerName := "", NextProtos := ["spdy/3.1"] } :: Call.spdyNewClientConn cs :: l,
          e.trans (by simp),
          isLater_cons (by simp [Call.isLater]) (isLater_cons (by simp [Call.isLater]) hl)⟩

theorem testTLSOk_snd (net : Net) (hp : String) (tc : ConnectionState) (s : site)
    (calls : List Call) :
    ∃ later : List Call, (site.testTLSOk net hp tc s calls).2 = calls ++ later ∧
      ∀ c ∈ later, c.isLater hp s.name = true := by
  unfold site.testTLSOk
  cases h : net.httpGet ("https://" ++ s.name)
  · exact ⟨[Call.httpGet ("https://" ++ s.name)], by simp [h], by simp [Call.isLater]⟩
  · obtain ⟨l, e, hl⟩ := testSPDY_snd net hp
      { name := s.name, resolves := s.resolves, port443Open := s.port443Open,
        tlsWorks := ⟨s.tlsWorks.ran, true⟩, httpsWorks := ⟨true, true⟩,
        spdyAnnounced := ⟨true, inList tc.OfferedProtocols "spdy/3.1"⟩,
        http2Announced := ⟨true, inList tc.OfferedProtocols "h2"⟩,
        spdyWorks := s.spdyWorks, http2Works := s.http2Works, npn := tc.OfferedProtocols }
      (calls ++ [Call.httpGet ("https://" ++ s.name)])
    refine ⟨Call.httpGet ("https://" ++ s.name) :: l, ?_,
      isLater_cons (by simp [Call.isLater]) hl⟩
    simp only [h, Bool.not_true, Bool.false_eq_true, if_false]
    exact e.trans (by simp)

/-! ## The probe: the outcome of the two request stages -/

theorem testHTTP2_works (net : Net) (hp : String) (s : site) (calls : List Call) :
    (site.testHTTP2 net hp s calls).1.http2Works =
      if s.http2Announced.yesno then
        match net.tlsDial "tcp" hp ⟨"", ["h2"]⟩ with
        | some cs =>
          if cs.NegotiatedProtocol != "h2" then ⟨true, s.http2Works.yesno⟩
          else if net.h2NewClientConn cs then
            ⟨true, net.h2RoundTrip "GET" ("https://" ++ s.name)⟩
          else ⟨true, s.http2Works.yesno⟩
        | none => ⟨true, s.http2Works.yesno⟩
      else s.http2Works := by
  unfold site.testHTTP2
  cases h : s.http2Announced.yesno
  · simp
  · simp only [if_true]
    cases net.tlsDial "tcp" hp { ServerName := "", NextProtos := ["h2"] } with
    | none => rfl
    | some cs =>
      simp only
      split_ifs <;> rfl

theorem testSPDY_works (net : Net) (hp : String) (s : site) (calls : List Call) :
    (site.testSPDY net hp s calls).1.spdyWorks =
      if s.spdyAnnounced.yesno then
        match net.tlsDial "tcp" hp ⟨"", ["spdy/3.1"]⟩ with
        | some cs =>
          if cs.NegotiatedProtocol != "spdy/3.1" then ⟨true, s.spdyWorks.yesno⟩
          else if net.spdyNewClientConn cs then
            ⟨true, net.spdyDo "GET" ("https://" ++ s.name)⟩
          else ⟨true, s.spdyWorks.yesno⟩
        | none => ⟨true, s.spdyWorks.yesno⟩
      else s.spdyWorks := by
  have key : ∀ (r : site) (c : List Call),
      (site.testHTTP2 net hp r c).1.spdyWorks = r.spdyWorks := by
    intro r c
    obtain ⟨v, e, -⟩ := testHTTP2_fst net hp r c
    rw [e]
  unfold site.testSPDY
  cases h : s.spdyAnnounced.yesno
  · simp [key]
  · simp only [if_true]
    cases net.tlsDial "tcp" hp { ServerName := "", NextProtos := ["spdy/3.1"] } with
    | none => simp only [key]
    | some cs =>
      simp only
      split_ifs <;> simp only [key]

theorem testHTTP2_works_congr (net : Net) (hp : String) (s r : site) (c d : List Call)
    (h1 : r.http2Announced = s.http2Announced) (h2 : r.http2Works = s.http2Works)
    (h3 : r.name = s.name) :
    (site.testHTTP2 net hp r d).1.http2Works = (site.testHTTP2 net hp s c).1.http2Works := by
  rw [testHTTP2_works, testHTTP2_works, h1, h2, h3]

theorem testSPDY_http2Works (net : Net) (hp : String) (s : site) (calls : List Call) :
    (site.testSPDY net hp s calls).1.http2Works =
      (site.testHTTP2 net hp s calls).1.http2Works := by
  unfold site.testSPDY
  cases h : s.spdyAnnounced.yesno
  · rfl
  · simp only [if_true]
    cases net.tlsDial "tcp" hp { ServerName := "", NextProtos := ["spdy/3.1"] } with
    | none => exact testHTTP2_works_congr net hp s _ _ _ rfl rfl rfl
    | some cs =>
      simp only
      split_ifs <;> exact testHTTP2_works_congr net hp s _ _ _ rfl rfl rfl

theorem test_of_reachesStage4 (net : Net) (s : site) (m : String) (tc : ConnectionState)
    (h : net.reachesStage4 s.name m tc) :
    ∃ calls : List Call, s.test net =
      site.testTLSOk net (net.JoinHostPort m "443") tc
        { s with name := m, resolves := ⟨true, true⟩, port443Open := ⟨true, true⟩,
                 tlsWorks := ⟨true, s.tlsWorks.yesno⟩ } calls := by
  obtain ⟨h1, h2, ⟨rfl, h3⟩ | ⟨rfl, h3, h4⟩⟩ := h
  · exact ⟨_, test_tls_first net s tc h1 h2 h3⟩
  · exact ⟨_, test_tls_retry net s tc h1 h2 h3 h4⟩

/-! ## Rendering of a record whose tri-states are known -/

theorem tri_String_of_not_ran (t : tri) (h : t.ran = false) : t.String = "-" := by
  simp [tri.String, h]

theorem newSite_fresh (n : String) : (newSite n).fresh := by
  simp [site.fresh, newSite]

/-! ## The claims about the probe -/

/-- Claim C1. Escalation invariant of `site.test`: for every freshly created record
(all eight tri-states not attempted, empty protocol list) and every outcome of
the network operations, the record after `test` satisfies `site.escalated`:
resolution not attempted-true leaves the other seven tri-states not attempted,
the port check not attempted-true leaves the six after it not attempted, the
TLS check not attempted-true leaves the five after it not attempted, and an
advertisement not attempted-true leaves the matching request not attempted. -/
theorem C1_escalation_invariant (net : Net) (s : site) (hs : s.fresh) :
    (s.test net).1.escalated := by
  obtain ⟨f1, f2, f3, f4, f5, f6, f7, f8, -⟩ := hs
  cases h1 : net.LookupHost s.name
  · rw [test_resolve_fail net s h1]
    simp [site.escalated, tri.attemptedTrue, tri.notAttempted, *]
  cases h2 : net.DialTimeout "tcp" (net.JoinHostPort s.name "443") 2
  · rw [test_dial_fail net s h1 h2]
    simp [site.escalated, tri.attemptedTrue, tri.notAttempted, *]
  have stage4 : ∀ (m : String) (tc : ConnectionState), net.reachesStage4 s.name m tc →
      (s.test net).1.escalated := by
    intro m tc hr
    obtain ⟨calls, e⟩ := test_of_reachesStage4 net s m tc hr
    obtain ⟨g, w, v, e2, -, -, hw, hv⟩ := testTLSOk_fst net (net.JoinHostPort m "443") tc
      { s with name := m, resolves := ⟨true, true⟩, port443Open := ⟨true, true⟩,
               tlsWorks := ⟨true, s.tlsWorks.yesno⟩ } calls
    rw [e, e2]
    simp only [site.escalated, tri.attemptedTrue, tri.notAttempted, Bool.and_self,
      Bool.true_and, Bool.true_eq_false, false_implies, true_and, Bool.not_eq_true']
    constructor
    · intro h
      rw [hw h]
      exact f7
    · intro h
      rw [hv h]
      exact f8
  cases h3 : net.tlsDial "tcp" (net.JoinHostPort s.name "443") ⟨s.name, []⟩ with
  | some tc => exact stage4 s.name tc ⟨h1, h2, Or.inl ⟨rfl, h3⟩⟩
  | none =>
    cases h4 : net.tlsDial "tcp" (net.JoinHostPort ("www." ++ s.name) "443")
        ⟨"www." ++ s.name, []⟩ with
    | some tc => exact stage4 ("www." ++ s.name) tc ⟨h1, h2, Or.inr ⟨rfl, h3, h4⟩⟩
    | none =>
      rw [test_tls_fail net s h1 h2 h3 h4]
      simp [site.escalated, tri.attemptedTrue, tri.notAttempted, *]

/-- Witness of C1 at the record for `example.com` on a network where every
operation succeeds. -/
theorem C1_escalation_invariant_witness :
    (newSite "example.com").fresh ∧
    ((newSite "example.com").test
      (exampleNet true true (some ⟨["h2"], ""⟩) none true "h2" true true)).1.escalated :=
  ⟨newSite_fresh _, C1_escalation_invariant _ _ (newSite_fresh _)⟩

/-- Claim C5. Early stop at stages 1 and 2: for every fresh record with name `n`,
(B) if resolution of `n` fails the name is still `n`, `resolves` is
attempted-false, the other seven tri-states are not attempted, the protocol
list is empty and the record renders as `n` followed by `,f,-,-,-,-,-,-,-,`;
(C) if resolution succeeds and the TCP dial to `(n, 443)` fails the name is
still `n`, `resolves` is attempted-true, `port443Open` attempted-false, the
other six not attempted, and the record renders as `n` followed by
`,t,f,-,-,-,-,-,-,`. -/
theorem C5_early_stop (net : Net) (s : site) (hs : s.fresh) :
    (net.LookupHost s.name = false →
      (s.test net).1.name = s.name ∧
      (s.test net).1.String = s.name ++ ",f,-,-,-,-,-,-,-," ∧
      (s.test net).1.resolves.attemptedFalse = true ∧
      (s.test net).1.port443Open.notAttempted = true ∧
      (s.test net).1.tlsWorks.notAttempted = true ∧
      (s.test net).1.httpsWorks.notAttempted = true ∧
      (s.test net).1.spdyAnnounced.notAttempted = true ∧
      (s.test net).1.http2Announced.notAttempted = true ∧
      (s.test net).1.spdyWorks.notAttempted = true ∧
      (s.test net).1.http2Works.notAttempted = true ∧
      (s.test net).1.npn = []) ∧
    (net.LookupHost s.name = true →
      net.DialTimeout "tcp" (net.JoinHostPort s.name "443") 2 = false →
      (s.test net).1.name = s.name ∧
      (s.test net).1.String = s.name ++ ",t,f,-,-,-,-,-,-," ∧
      (s.test net).1.resolves.attemptedTrue = true ∧
      (s.test net).1.port443Open.attemptedFalse = true ∧
      (s.test net).1.tlsWorks.notAttempted = true ∧
      (s.test net).1.httpsWorks.notAttempted = true ∧
      (s.test net).1.spdyAnnounced.notAttempted = true ∧
      (s.test net).1.http2Announced.notAttempted = true ∧
      (s.test net).1.spdyWorks.notAttempted = true ∧
      (s.test net).1.http2Works.notAttempted = true ∧
      (s.test net).1.npn = []) := by
  obtain ⟨f1, f2, f3, f4, f5, f6, f7, f8, f9⟩ := hs
  constructor
  · intro h1
    rw [test_resolve_fail net s h1]
    simp [site.String, tri_String_of_not_ran, tri.String, tri.attemptedFalse,
      tri.notAttempted, Join, String.append_assoc, *]
  · intro h1 h2
    rw [test_dial_fail net s h1 h2]
    simp [site.String, tri_String_of_not_ran, tri.String, tri.attemptedFalse,
      tri.attemptedTrue, tri.notAttempted, Join, String.append_assoc, *]

/-- Witness of C5: `example.com` does not resolve on the first network;
on the second it resolves and the TCP dial fails. -/
theorem C5_early_stop_witness :
    (newSite "example.com").fresh ∧
    (exampleNet false false none none false "" false false).LookupHost "example.com" = false ∧
    ((newSite "example.com").test
      (exampleNet false false none none false "" false false)).1.String
        = "example.com" ++ ",f,-,-,-,-,-,-,-," ∧
    (exampleNet true false none none false "" false false).LookupHost "example.com" = true ∧
    (exampleNet true false none none false "" false false).DialTimeout "tcp"
      ((exampleNet true false none none false "" false false).JoinHostPort
        "example.com" "443") 2 = false ∧
    ((newSite "example.com").test
      (exampleNet true false none none false "" false false)).1.String
        = "example.com" ++ ",t,f,-,-,-,-,-,-," :=
  ⟨newSite_fresh _, rfl,
    ((C5_early_stop (exampleNet false false none none false "" false false)
      (newSite "example.com") (newSite_fresh _)).1 rfl).2.1,
    rfl, rfl,
    ((C5_early_stop (exampleNet true false none none false "" false false)
      (newSite "example.com") (newSite_fresh _)).2 rfl rfl).2.1⟩

/-- Claim C7. Successful plain-HTTPS host: for every fresh record with name `n`, if
resolution succeeds, the TCP dial succeeds, the first TLS handshake succeeds
with an empty offered-protocol list and the HTTPS `GET` succeeds, then after
`test` the record renders as `n` followed by `,t,t,t,t,f,f,-,-,`:
`httpsWorks` attempted-true, both advertised fields attempted-false, both
request fields not attempted, empty protocol list. -/
theorem C7_plain_https (net : Net) (s : site) (tc : ConnectionState) (hs : s.fresh)
    (h1 : net.LookupHost s.name = true)
    (h2 : net.DialTimeout "tcp" (net.JoinHostPort s.name "443") 2 = true)
    (h3 : net.tlsDial "tcp" (net.JoinHostPort s.name "443") ⟨s.name, []⟩ = some tc)
    (h4 : tc.OfferedProtocols = [])
    (h5 : net.httpGet ("https://" ++ s.name) = true) :
    (s.test net).1.String = s.name ++ ",t,t,t,t,f,f,-,-," ∧
    (s.test net).1.name = s.name ∧
    (s.test net).1.resolves.attemptedTrue = true ∧
    (s.test net).1.port443Open.attemptedTrue = true ∧
    (s.test net).1.tlsWorks.attemptedTrue = true ∧
    (s.test net).1.httpsWorks.attemptedTrue = true ∧
    (s.test net).1.spdyAnnounced.attemptedFalse = true ∧
    (s.test net).1.http2Announced.attemptedFalse = true ∧
    (s.test net).1.spdyWorks.notAttempted = true ∧
    (s.test net).1.http2Works.notAttempted = true ∧
    (s.test net).1.npn = [] := by
  obtain ⟨f1, f2, f3, f4, f5, f6, f7, f8, f9⟩ := hs
  obtain ⟨g, w, v, e, hg, -, hw, hv⟩ := testTLSOk_fst net (net.JoinHostPort s.name "443") tc
      { s with resolves := ⟨true, true⟩, port443Open := ⟨true, true⟩,
               tlsWorks := ⟨true, s.tlsWorks.yesno⟩ }
      [Call.LookupHost s.name, Call.DialTimeout "tcp" (net.JoinHostPort s.name "443") 2,
        Call.tlsDial "tcp" (net.JoinHostPort s.name "443") ⟨s.name, []⟩]
  rw [test_tls_first net s tc h1 h2 h3, e, hg h5, hw (by simp [h4, inList]),
    hv (by simp [h4, inList])]
  simp [site.String, tri_String_of_not_ran, tri.String, tri.attemptedFalse,
    tri.attemptedTrue, tri.notAttempted, Join, String.append_assoc, inList, *]

/-- Witness of C7: `example.com` serves HTTPS and offers no protocol. -/
theorem C7_plain_https_witness :
    (newSite "example.com").fresh ∧
    (exampleNet true true (some ⟨[], ""⟩) none true "" false false).tlsDial "tcp"
      "example.com:443" ⟨"example.com", []⟩ = some ⟨[], ""⟩ ∧
    ((newSite "example.com").test
      (exampleNet true true (some ⟨[], ""⟩) none true "" false false)).1.String
        = "example.com" ++ ",t,t,t,t,f,f,-,-," :=
  ⟨newSite_fresh _, rfl,
    (C7_plain_https (exampleNet true true (some ⟨[], ""⟩) none true "" false false)
      (newSite "example.com") ⟨[], ""⟩ (newSite_fresh _) rfl rfl rfl rfl rfl).1⟩

/-- Claim C8. Advertisement check: `in(list, s)` is true exactly when `s` is an
element of `list` (false for the empty list); and for every record whose TLS
handshake succeeds, at the first attempt or at the retry, with
offered-protocol list `L`, after `test` the record's `npn` is `L`,
`spdyAnnounced` is attempted with value `"spdy/3.1" ∈ L` and `http2Announced`
is attempted with value `"h2" ∈ L`, whatever the later stages do. -/
theorem C8_advertisement_check :
    (∀ (list : List String) (x : String), inList list x = true ↔ x ∈ list) ∧
    (∀ x : String, inList [] x = false) ∧
    (∀ (net : Net) (s : site) (m : String) (tc : ConnectionState),
      net.reachesStage4 s.name m tc →
      (s.test net).1.npn = tc.OfferedProtocols ∧
      (s.test net).1.spdyAnnounced = ⟨true, decide ("spdy/3.1" ∈ tc.OfferedProtocols)⟩ ∧
      (s.test net).1.http2Announced = ⟨true, decide ("h2" ∈ tc.OfferedProtocols)⟩) := by
  refine ⟨inList_iff, fun _ => rfl, ?_⟩
  intro net s m tc hr
  obtain ⟨calls, e⟩ := test_of_reachesStage4 net s m tc hr
  obtain ⟨g, w, v, e2, -⟩ := testTLSOk_fst net (net.JoinHostPort m "443") tc
      { s with name := m, resolves := ⟨true, true⟩, port443Open := ⟨true, true⟩,
               tlsWorks := ⟨true, s.tlsWorks.yesno⟩ } calls
  rw [e, e2]
  have key : ∀ x : String, inList tc.OfferedProtocols x = decide (x ∈ tc.OfferedProtocols) := by
    intro x
    rw [Bool.eq_iff_iff, inList_iff]
    simp
  exact ⟨rfl, congrArg (tri.mk true) (key _), congrArg (tri.mk true) (key _)⟩

/-- Witness of C8: the first handshake with `example.com` fails, the retry
under `www.example.com` succeeds and offers `h2` and `http/1.1`. -/
theorem C8_advertisement_check_witness :
    (exampleNet true true none (some ⟨["h2", "http/1.1"], ""⟩) false "" false
      false).reachesStage4 "example.com" "www.example.com" ⟨["h2", "http/1.1"], ""⟩ ∧
    ((newSite "example.com").test
      (exampleNet true true none (some ⟨["h2", "http/1.1"], ""⟩) false "" false
        false)).1.npn = ["h2", "http/1.1"] :=
  ⟨⟨rfl, rfl, Or.inr ⟨rfl, rfl, rfl⟩⟩,
    (C8_advertisement_check.2.2
      (exampleNet true true none (some ⟨["h2", "http/1.1"], ""⟩) false "" false false)
      (newSite "example.com") "www.example.com" ⟨["h2", "http/1.1"], ""⟩
      ⟨rfl, rfl, Or.inr ⟨rfl, rfl, rfl⟩⟩).1⟩

theorem www_append_ne (n : String) : "www." ++ n ≠ n := by
  intro h
  have := congrArg String.length h
  rw [String.length_append] at this
  have h4 : "www.".length = 4 := by decide
  omega

theorem www_append_ne_empty (n : String) : "www." ++ n ≠ "" := by
  intro h
  have := congrArg String.length h
  rw [String.length_append] at this
  have h4 : "www.".length = 4 := by decide
  have h0 : "".length = 0 := by decide
  omega

theorem testTLSOk_name (net : Net) (hp : String) (tc : ConnectionState) (s : site)
    (calls : List Call) : (site.testTLSOk net hp tc s calls).1.name = s.name := by
  obtain ⟨g, w, v, e, -⟩ := testTLSOk_fst net hp tc s calls
  rw [e]

theorem count_later_retry (hp n : String) (later : List Call)
    (h : ∀ c ∈ later, c.isLater hp ("www." ++ n) = true) :
    later.count (Call.tlsDial "tcp" hp ⟨"www." ++ n, []⟩) = 0 := by
  apply List.count_eq_zero_of_not_mem
  intro hmem
  have := h _ hmem
  simp [Call.isLater, www_append_ne_empty] at this

/-- Claim C6. TLS retry and name rewrite: for every fresh record with name `n` that
reaches stage 3 (resolution and TCP dial succeed), the first three library
calls are the lookup, the TCP dial and a handshake with server name `n`.  If
that handshake succeeds the name stays `n` and every later call is made for
`n`.  If it fails the name becomes `"www." ++ n`, the fourth call is a
handshake with server name `"www." ++ n`, made exactly once; if this retry
succeeds every later call (HTTPS, SPDY and HTTP/2 stages) is made for
`"www." ++ n`; if it fails too, `tlsWorks` is attempted-false, no further call
is made and the record renders as `"www." ++ n` followed by
`,t,t,f,-,-,-,-,-,`.  When stage 3 is not reached the name stays `n`. -/
theorem C6_tls_retry (net : Net) (s : site) (hs : s.fresh) :
    (net.LookupHost s.name = true →
      net.DialTimeout "tcp" (net.JoinHostPort s.name "443") 2 = true →
      (s.test net).2.take 3 =
        [Call.LookupHost s.name,
         Call.DialTimeout "tcp" (net.JoinHostPort s.name "443") 2,
         Call.tlsDial "tcp" (net.JoinHostPort s.name "443") ⟨s.name, []⟩] ∧
      (∀ tc : ConnectionState,
        net.tlsDial "tcp" (net.JoinHostPort s.name "443") ⟨s.name, []⟩ = some tc →
        (s.test net).1.name = s.name ∧
        ∃ later : List Call,
          (s.test net).2 =
            [Call.LookupHost s.name,
             Call.DialTimeout "tcp" (net.JoinHostPort s.name "443") 2,
             Call.tlsDial "tcp" (net.JoinHostPort s.name "443") ⟨s.name, []⟩] ++ later ∧
          ∀ c ∈ later, c.isLater (net.JoinHostPort s.name "443") s.name = true) ∧
      (net.tlsDial "tcp" (net.JoinHostPort s.name "443") ⟨s.name, []⟩ = none →
        (s.test net).1.name = "www." ++ s.name ∧
        (s.test net).2.take 4 =
          [Call.LookupHost s.name,
           Call.DialTimeout "tcp" (net.JoinHostPort s.name "443") 2,
           Call.tlsDial "tcp" (net.JoinHostPort s.name "443") ⟨s.name, []⟩,
           Call.tlsDial "tcp" (net.JoinHostPort ("www." ++ s.name) "443")
             ⟨"www." ++ s.name, []⟩] ∧
        (s.test net).2.count (Call.tlsDial "tcp" (net.JoinHostPort ("www." ++ s.name) "443")
             ⟨"www." ++ s.name, []⟩) = 1 ∧
        (∀ tc : ConnectionState,
          net.tlsDial "tcp" (net.JoinHostPort ("www." ++ s.name) "443")
            ⟨"www." ++ s.name, []⟩ = some tc →
          ∀ c ∈ (s.test net).2.drop 4,
            c.isLater (net.JoinHostPort ("www." ++ s.name) "443") ("www." ++ s.name) = true) ∧
        (net.tlsDial "tcp" (net.JoinHostPort ("www." ++ s.name) "443")
            ⟨"www." ++ s.name, []⟩ = none →
          (s.test net).1.tlsWorks.attemptedFalse = true ∧
          (s.test net).2.drop 4 = [] ∧
          (s.test net).1.String = "www." ++ s.name ++ ",t,t,f,-,-,-,-,-,"))) ∧
    (net.LookupHost s.name = false → (s.test net).1.name = s.name) ∧
    (net.LookupHost s.name = true →
      net.DialTimeout "tcp" (net.JoinHostPort s.name "443") 2 = false →
      (s.test net).1.name = s.name) := by
  obtain ⟨f1, f2, f3, f4, f5, f6, f7, f8, f9⟩ := hs
  refine ⟨fun h1 h2 => ?_, fun h1 => ?_, fun h1 h2 => ?_⟩
  · cases h3 : net.tlsDial "tcp" (net.JoinHostPort s.name "443") ⟨s.name, []⟩ with
    | some tc =>
      have e := test_tls_first net s tc h1 h2 h3
      obtain ⟨later, el, hl⟩ := testTLSOk_snd net (net.JoinHostPort s.name "443") tc
        { s with resolves := ⟨true, true⟩, port443Open := ⟨true, true⟩,
                 tlsWorks := ⟨true, s.tlsWorks.yesno⟩ }
        [Call.LookupHost s.name, Call.DialTimeout "tcp" (net.JoinHostPort s.name "443") 2,
          Call.tlsDial "tcp" (net.JoinHostPort s.name "443") ⟨s.name, []⟩]
      rw [e]
      refine ⟨by rw [el]; rfl, ?_, fun h => by simp at h⟩
      intro tc2 _
      exact ⟨testTLSOk_name _ _ _ _ _, later, el, hl⟩
    | none =>
      refine ⟨?_, fun tc h => by simp at h, fun _ => ?_⟩
      · cases h4 : net.tlsDial "tcp" (net.JoinHostPort ("www." ++ s.name) "443")
            ⟨"www." ++ s.name, []⟩ with
        | some tc =>
          obtain ⟨later, el, -⟩ := testTLSOk_snd net
            (net.JoinHostPort ("www." ++ s.name) "443") tc
            { s with name := "www." ++ s.name, resolves := ⟨true, true⟩,
                     port443Open := ⟨true, true⟩, tlsWorks := ⟨true, s.tlsWorks.yesno⟩ }
            [Call.LookupHost s.name,
              Call.DialTimeout "tcp" (net.JoinHostPort s.name "443") 2,
              Call.tlsDial "tcp" (net.JoinHostPort s.name "443") ⟨s.name, []⟩,
              Call.tlsDial "tcp" (net.JoinHostPort ("www." ++ s.name) "443")
                ⟨"www." ++ s.name, []⟩]
          rw [test_tls_retry net s tc h1 h2 h3 h4, el]
          rfl
        | none =>
          rw [test_tls_fail net s h1 h2 h3 h4]
          rfl
      · cases h4 : net.tlsDial "tcp" (net.JoinHostPort ("www." ++ s.name) "443")
            ⟨"www." ++ s.name, []⟩ with
        | some tc =>
          obtain ⟨later, el, hl⟩ := testTLSOk_snd net
            (net.JoinHostPort ("www." ++ s.name) "443") tc
            { s with name := "www." ++ s.name, resolves := ⟨true, true⟩,
                     port443Open := ⟨true, true⟩, tlsWorks := ⟨true, s.tlsWorks.yesno⟩ }
            [Call.LookupHost s.name,
              Call.DialTimeout "tcp" (net.JoinHostPort s.name "443") 2,
              Call.tlsDial "tcp" (net.JoinHostPort s.name "443") ⟨s.name, []⟩,
              Call.tlsDial "tcp" (net.JoinHostPort ("www." ++ s.name) "443")
                ⟨"www." ++ s.name, []⟩]
          rw [test_tls_retry net s tc h1 h2 h3 h4]
          refine ⟨testTLSOk_name _ _ _ _ _, by rw [el]; rfl, ?_, ?_, fun h => by simp at h⟩
          · rw [el, List.count_append, count_later_retry _ _ _ hl]
            simp [List.count_cons, www_append_ne]
          · intro tc2 _
            rw [el]
            exact hl
        | none =>
          rw [test_tls_fail net s h1 h2 h3 h4]
          refine ⟨rfl, rfl, ?_, fun tc h => by simp at h, fun _ => ⟨rfl, rfl, ?_⟩⟩
          · simp [List.count_cons, www_append_ne]
          · simp [site.String, tri_String_of_not_ran, tri.String, Join,
              String.append_assoc, *]
  · rw [test_resolve_fail net s h1]
  · rw [test_dial_fail net s h1 h2]

/-- Witness of C6: both handshakes with `example.com` fail. -/
theorem C6_tls_retry_witness :
    (newSite "example.com").fresh ∧
    (exampleNet true true none none false "" false false).LookupHost "example.com" = true ∧
    (exampleNet true true none none false "" false false).DialTimeout "tcp"
      "example.com:443" 2 = true ∧
    (exampleNet true true none none false "" false false).tlsDial "tcp"
      "example.com:443" ⟨"example.com", []⟩ = none ∧
    (exampleNet true true none none false "" false false).tlsDial "tcp"
      "www.example.com:443" ⟨"www.example.com", []⟩ = none ∧
    ((newSite "example.com").test
      (exampleNet true true none none false "" false false)).1.String
        = "www." ++ "example.com" ++ ",t,t,f,-,-,-,-,-," :=
  ⟨newSite_fresh _, rfl, rfl, rfl, rfl,
    ((((C6_tls_retry (exampleNet true true none none false "" false false)
      (newSite "example.com") (newSite_fresh _)).1 rfl rfl).2.2 rfl).2.2.2.2 rfl).2.2⟩

theorem testTLSOk_requests (net : Net) (hp : String) (tc : ConnectionState) (s : site)
    (calls : List Call) (hget : net.httpGet ("https://" ++ s.name) = true) :
    (site.testTLSOk net hp tc s calls).1.spdyWorks =
      (if inList tc.OfferedProtocols "spdy/3.1" then
        match net.tlsDial "tcp" hp ⟨"", ["spdy/3.1"]⟩ with
        | some cs =>
          if cs.NegotiatedProtocol != "spdy/3.1" then ⟨true, s.spdyWorks.yesno⟩
          else if net.spdyNewClientConn cs then
            ⟨true, net.spdyDo "GET" ("https://" ++ s.name)⟩
          else ⟨true, s.spdyWorks.yesno⟩
        | none => ⟨true, s.spdyWorks.yesno⟩
      else s.spdyWorks) ∧
    (site.testTLSOk net hp tc s calls).1.http2Works =
      (if inList tc.OfferedProtocols "h2" then
        match net.tlsDial "tcp" hp ⟨"", ["h2"]⟩ with
        | some cs =>
          if cs.NegotiatedProtocol != "h2" then ⟨true, s.http2Works.yesno⟩
          else if net.h2NewClientConn cs then
            ⟨true, net.h2RoundTrip "GET" ("https://" ++ s.name)⟩
          else ⟨true, s.http2Works.yesno⟩
        | none => ⟨true, s.http2Works.yesno⟩
      else s.http2Works) := by
  unfold site.testTLSOk
  simp only [hget, Bool.not_true, Bool.false_eq_true, if_false]
  rw [testSPDY_works, testSPDY_http2Works, testHTTP2_works]
  exact ⟨rfl, rfl⟩

/-- Claim C2 (the code at the failing input). The host `example.com` resolves,
accepts the TCP dial, completes the first TLS handshake offering `h2`, fails
the HTTPS `GET`, and would answer an HTTP/2 request: `test` makes no call after
the `GET`, `httpsWorks` is attempted-false, `http2Announced` is attempted-true
and `http2Works` stays not attempted, so the record renders
`example.com,t,t,t,f,f,t,-,-,h2`. -/
theorem C2_https_failure_stops_probe :
    (exampleNet true true (some ⟨["h2"], ""⟩) none false "h2" true true).reachesStage4
      "example.com" "example.com" ⟨["h2"], ""⟩ ∧
    (exampleNet true true (some ⟨["h2"], ""⟩) none false "h2" true true).httpGet
      "https://example.com" = false ∧
    (exampleNet true true (some ⟨["h2"], ""⟩) none false "h2" true true).tlsDial "tcp"
      "example.com:443" ⟨"", ["h2"]⟩ = some ⟨[], "h2"⟩ ∧
    (exampleNet true true (some ⟨["h2"], ""⟩) none false "h2" true true).h2NewClientConn
      ⟨[], "h2"⟩ = true ∧
    (exampleNet true true (some ⟨["h2"], ""⟩) none false "h2" true true).h2RoundTrip
      "GET" "https://example.com" = true ∧
    ((newSite "example.com").test
      (exampleNet true true (some ⟨["h2"], ""⟩) none false "h2" true true)).1.httpsWorks
        = ⟨true, false⟩ ∧
    ((newSite "example.com").test
      (exampleNet true true (some ⟨["h2"], ""⟩) none false "h2" true true)).1.http2Announced
        = ⟨true, true⟩ ∧
    ((newSite "example.com").test
      (exampleNet true true (some ⟨["h2"], ""⟩) none false "h2" true true)).1.http2Works
        = ⟨false, false⟩ ∧
    ((newSite "example.com").test
      (exampleNet true true (some ⟨["h2"], ""⟩) none false "h2" true true)).1.String
        = "example.com,t,t,t,f,f,t,-,-,h2" ∧
    ((newSite "example.com").test
      (exampleNet true true (some ⟨["h2"], ""⟩) none false "h2" true true)).2
        = [Call.LookupHost "example.com", Call.DialTimeout "tcp" "example.com:443" 2,
           Call.tlsDial "tcp" "example.com:443" ⟨"example.com", []⟩,
           Call.httpGet "https://example.com"] :=
  ⟨⟨rfl, rfl, Or.inl ⟨rfl, rfl⟩⟩, rfl, rfl, rfl, rfl, rfl, rfl, rfl, by decide, by decide⟩

/-- Claim C3 as stated fails: `example.com` advertises `spdy/3.1`, the HTTPS `GET`
succeeds, the stage-6 connection succeeds and negotiates `http/1.1`; after
`test` the tri-state `spdyWorks` is attempted (it renders `f`, not `-`). -/
theorem C3_counterexample :
    (exampleNet true true (some ⟨["spdy/3.1"], ""⟩) none true "http/1.1" true
      true).reachesStage4 "example.com" "example.com" ⟨["spdy/3.1"], ""⟩ ∧
    (exampleNet true true (some ⟨["spdy/3.1"], ""⟩) none true "http/1.1" true true).httpGet
      "https://example.com" = true ∧
    ((newSite "example.com").test
      (exampleNet true true (some ⟨["spdy/3.1"], ""⟩) none true "http/1.1" true
        true)).1.spdyAnnounced = ⟨true, true⟩ ∧
    (exampleNet true true (some ⟨["spdy/3.1"], ""⟩) none true "http/1.1" true true).tlsDial
      "tcp" "example.com:443" ⟨"", ["spdy/3.1"]⟩ = some ⟨[], "http/1.1"⟩ ∧
    "http/1.1" ≠ "spdy/3.1" ∧
    ¬ ((newSite "example.com").test
      (exampleNet true true (some ⟨["spdy/3.1"], ""⟩) none true "http/1.1" true
        true)).1.spdyWorks.notAttempted = true ∧
    ((newSite "example.com").test
      (exampleNet true true (some ⟨["spdy/3.1"], ""⟩) none true "http/1.1" true
        true)).1.spdyWorks.String ≠ "-" ∧
    ((newSite "example.com").test
      (exampleNet true true (some ⟨["spdy/3.1"], ""⟩) none true "http/1.1" true
        true)).1.String = "example.com,t,t,t,t,t,f,f,-,spdy/3.1" :=
  ⟨⟨rfl, rfl, Or.inl ⟨rfl, rfl⟩⟩, rfl, rfl, rfl, by decide, by decide, by decide, by decide⟩

/-- Claim C3 (amended). A skipped protocol request stage leaves its tri-state
attempted-false: for every record built by the dispatcher that reaches stage 6
(stages 1 to 3 succeed under the name `m` and the HTTPS `GET` succeeds), if
`spdy/3.1` is advertised and the new TLS connection succeeds but negotiates
another protocol, or negotiates `spdy/3.1` and creating the SPDY client
connection fails, then `spdyWorks` is attempted with value false and renders
`f`; likewise for `h2`, the HTTP/2 client connection and `http2Works`. -/
theorem C3_skipped_request_stage (net : Net) (n m : String) (tc : ConnectionState)
    (hr : net.reachesStage4 n m tc) (hget : net.httpGet ("https://" ++ m) = true) :
    (inList tc.OfferedProtocols "spdy/3.1" = true →
      ∀ cs : ConnectionState,
        net.tlsDial "tcp" (net.JoinHostPort m "443") ⟨"", ["spdy/3.1"]⟩ = some cs →
        (cs.NegotiatedProtocol ≠ "spdy/3.1" ∨
          (cs.NegotiatedProtocol = "spdy/3.1" ∧ net.spdyNewClientConn cs = false)) →
        ((newSite n).test net).1.spdyAnnounced.attemptedTrue = true ∧
        ((newSite n).test net).1.spdyWorks.attemptedFalse = true ∧
        ((newSite n).test net).1.spdyWorks.String = "f") ∧
    (inList tc.OfferedProtocols "h2" = true →
      ∀ cs : ConnectionState,
        net.tlsDial "tcp" (net.JoinHostPort m "443") ⟨"", ["h2"]⟩ = some cs →
        (cs.NegotiatedProtocol ≠ "h2" ∨
          (cs.NegotiatedProtocol = "h2" ∧ net.h2NewClientConn cs = false)) →
        ((newSite n).test net).1.http2Announced.attemptedTrue = true ∧
        ((newSite n).test net).1.http2Works.attemptedFalse = true ∧
        ((newSite n).test net).1.http2Works.String = "f") := by
  obtain ⟨calls, e⟩ := test_of_reachesStage4 net (newSite n) m tc hr
  obtain ⟨g, w, v, e2, -⟩ := testTLSOk_fst net (net.JoinHostPort m "443") tc
      { newSite n with name := m, resolves := ⟨true, true⟩, port443Open := ⟨true, true⟩,
                       tlsWorks := ⟨true, (newSite n).tlsWorks.yesno⟩ } calls
  obtain ⟨ws, wh⟩ := testTLSOk_requests net (net.JoinHostPort m "443") tc
      { newSite n with name := m, resolves := ⟨true, true⟩, port443Open := ⟨true, true⟩,
                       tlsWorks := ⟨true, (newSite n).tlsWorks.yesno⟩ } calls hget
  have a1 : ((newSite n).test net).1.spdyAnnounced
      = ⟨true, inList tc.OfferedProtocols "spdy/3.1"⟩ := by rw [e, e2]
  have a2 : ((newSite n).test net).1.http2Announced
      = ⟨true, inList tc.OfferedProtocols "h2"⟩ := by rw [e, e2]
  rw [a1, a2, e, ws, wh]
  constructor
  · intro ha cs hd hc
    rw [ha, hd]
    rcases hc with hc | ⟨hc, hs⟩
    · simp [hc, tri.attemptedTrue, tri.attemptedFalse, tri.String, newSite]
    · simp [hc, hs, tri.attemptedTrue, tri.attemptedFalse, tri.String, newSite]
  · intro ha cs hd hc
    rw [ha, hd]
    rcases hc with hc | ⟨hc, hs⟩
    · simp [hc, tri.attemptedTrue, tri.attemptedFalse, tri.String, newSite]
    · simp [hc, hs, tri.attemptedTrue, tri.attemptedFalse, tri.String, newSite]

/-- Witness of C3 (amended): `example.com` advertises `spdy/3.1` and `h2`, the
HTTPS `GET` succeeds and both request-stage connections negotiate
`http/1.1`. -/
theorem C3_skipped_request_stage_witness :
    (exampleNet true true (some ⟨["spdy/3.1", "h2"], ""⟩) none true "http/1.1" true
      true).reachesStage4 "example.com" "example.com" ⟨["spdy/3.1", "h2"], ""⟩ ∧
    (exampleNet true true (some ⟨["spdy/3.1", "h2"], ""⟩) none true "http/1.1" true
      true).httpGet ("https://" ++ "example.com") = true ∧
    ((newSite "example.com").test
      (exampleNet true true (some ⟨["spdy/3.1", "h2"], ""⟩) none true "http/1.1" true
        true)).1.spdyWorks.String = "f" ∧
    ((newSite "example.com").test
      (exampleNet true true (some ⟨["spdy/3.1", "h2"], ""⟩) none true "http/1.1" true
        true)).1.http2Works.String = "f" :=
  ⟨⟨rfl, rfl, Or.inl ⟨rfl, rfl⟩⟩, rfl,
    ((C3_skipped_request_stage
      (exampleNet true true (some ⟨["spdy/3.1", "h2"], ""⟩) none true "http/1.1" true true)
      "example.com" "example.com" ⟨["spdy/3.1", "h2"], ""⟩ ⟨rfl, rfl, Or.inl ⟨rfl, rfl⟩⟩
      rfl).1 rfl ⟨[], "http/1.1"⟩ rfl (Or.inl (by decide))).2.2,
    ((C3_skipped_request_stage
      (exampleNet true true (some ⟨["spdy/3.1", "h2"], ""⟩) none true "http/1.1" true true)
      "example.com" "example.com" ⟨["spdy/3.1", "h2"], ""⟩ ⟨rfl, rfl, Or.inl ⟨rfl, rfl⟩⟩
      rfl).2 rfl ⟨[], "http/1.1"⟩ rfl (Or.inl (by decide))).2.2⟩

end H2scan
